import Mathlib

/-!
Verification of the volleyball-heatmap session core (src/heatmap.js).

The embedding models the frozen CONFIG object, the data model (points,
ledger actions, session state), the SessionState ledger operations
(addPoint, clearAllPoints, undo, redo, trimUndoStack / trimRedoStack),
the migration pass of SessionState.load, FileManager.validatePoint,
GridGeometry.scale / pixelsToMeters, HeatmapApp.handleRotationClick and
HeatmapApp.handleCombineFiles.

JavaScript numbers are modelled as rationals; a JS field that may be
absent is an Option, and a field whose presence (hasOwnProperty) is
distinct from holding null is an Option of an Option, the outer layer
recording presence.  JS arrays used as stacks push and pop at the end of
a List.  Code that throws is modelled with Except.
-/

namespace VolleyballHeatmap

-- =====================================================
-- CONFIGURATION (heatmap.js lines 28-93)
-- =====================================================

/-- CONFIG.debug (heatmap.js lines 30-34). -/
structure DebugConfig where
  enabled : Bool
  assertionsEnabled : Bool
deriving DecidableEq

/-- The shipped CONFIG.debug values: enabled is false, assertionsEnabled is true. -/
def CONFIG_debug : DebugConfig :=
  { enabled := false, assertionsEnabled := true }

/-- CONFIG.validation (heatmap.js lines 83-92), the fields the core reads. -/
structure ValidationConfig where
  minRotation : ℚ
  maxRotation : ℚ
  maxPointCount : ℕ
  maxUndoStackSize : ℕ
  autoTrimUndoStack : Bool
deriving DecidableEq

/-- The shipped CONFIG.validation values. -/
def CONFIG_validation : ValidationConfig :=
  { minRotation := 1, maxRotation := 6, maxPointCount := 10000,
    maxUndoStackSize := 1000, autoTrimUndoStack := true }

/-- CONFIG.grid (heatmap.js lines 35-41), the numeric fields. -/
structure GridConfig where
  size : ℚ
  canvasSize : ℚ
  innerSquareSize : ℚ
deriving DecidableEq

/-- The shipped CONFIG.grid values: 15 m court, 600 px canvas, 9 m inner square. -/
def CONFIG_grid : GridConfig :=
  { size := 15, canvasSize := 600, innerSquareSize := 9 }

-- =====================================================
-- DEBUG UTILITIES (heatmap.js lines 128-132)
-- =====================================================

/-- The assert helper (heatmap.js lines 128-132): it throws exactly when
debug mode and assertions are both enabled and the condition is false. -/
def assertCheck (dbg : DebugConfig) (condition : Bool) : Except String Unit :=
  if dbg.enabled && dbg.assertionsEnabled && !condition then
    Except.error "Assertion failed"
  else
    Except.ok ()

-- =====================================================
-- DATA MODEL (heatmap.js lines 459-477)
-- =====================================================

/-- A team tag, the string values us and opp. -/
inductive Team
  | us
  | opp
deriving DecidableEq

/-- Line data for charting mode (heatmap.js lines 464-468). -/
structure Line where
  startX : ℚ
  startY : ℚ
  endX : ℚ
  endY : ℚ
deriving DecidableEq

/-- The two session modes, the strings simpleHeatmap and heatmapCharting. -/
inductive Mode
  | simpleHeatmap
  | heatmapCharting
deriving DecidableEq

/-- A stored point (heatmap.js lines 459-470).  rotation is a JS number or
null/undefined, so an Option.  jerseyNumber and team are fields whose
presence is tested with hasOwnProperty during migration and whose value
may itself be null, hence the nested Option: none means the field is
absent, some none means it is present and null. -/
structure Point where
  x : ℚ
  y : ℚ
  rotation : Option ℚ
  line : Option Line
  jerseyNumber : Option (Option String)
  team : Option (Option Team)
deriving DecidableEq

/-- A ledger action (heatmap.js lines 472-477): add carries one point,
clear carries a snapshot of the whole point sequence. -/
inductive Action
  | add (point : Point)
  | clear (points : List Point)
deriving DecidableEq

/-- The SessionState fields (heatmap.js lines 483-492) that the ledger
operations read or write. -/
structure SessionState where
  name : String
  mode : Mode
  points : List Point
  undoStack : List Action
  redoStack : List Action
  isViewOnly : Bool
deriving DecidableEq

-- =====================================================
-- SESSION LEDGER OPERATIONS (heatmap.js lines 497-593)
-- =====================================================

/-- trimUndoStack / trimRedoStack (heatmap.js lines 497-518): both bodies
are identical up to the field they trim, so one helper.  When auto-trim
is on, the bound is positive and the stack is longer than the bound, the
source keeps stack.slice(-maxSize), that is the last maxSize entries,
which on lists is dropping length - maxSize entries from the front. -/
def trimStack (vcfg : ValidationConfig) (stack : List Action) : List Action :=
  if vcfg.autoTrimUndoStack = true ∧ 0 < vcfg.maxUndoStackSize ∧
      vcfg.maxUndoStackSize < stack.length then
    stack.drop (stack.length - vcfg.maxUndoStackSize)
  else
    stack

/-- The state effect of SessionState.addPoint (heatmap.js lines 524-533):
append the point, push an add action, trim the undo stack, clear the redo
stack.  The three asserts at the head of the source body are modelled
separately in addPointChecked; under the shipped debug configuration they
never throw, so they have no state effect. -/
def addPoint (vcfg : ValidationConfig) (st : SessionState) (point : Point) : SessionState :=
  { st with
    points := st.points ++ [point]
    undoStack := trimStack vcfg (st.undoStack ++ [Action.add point])
    redoStack := [] }

/-- SessionState.addPoint with its asserts (heatmap.js lines 524-533).
The first two asserts test that the argument is an object with numeric x
and y, which is true of every value of the Point type; the third tests
typeof point.rotation === number, which is rotation.isSome here. -/
def addPointChecked (dbg : DebugConfig) (vcfg : ValidationConfig)
    (st : SessionState) (point : Point) : Except String SessionState := do
  _ ← assertCheck dbg true
  _ ← assertCheck dbg true
  _ ← assertCheck dbg point.rotation.isSome
  pure (addPoint vcfg st point)

/-- SessionState.clearAllPoints (heatmap.js lines 546-553): when points is
non-empty, push a clear action holding a snapshot, trim, clear the redo
stack; in every case set points to the empty array. -/
def clearAllPoints (vcfg : ValidationConfig) (st : SessionState) : SessionState :=
  if 0 < st.points.length then
    { st with
      points := []
      undoStack := trimStack vcfg (st.undoStack ++ [Action.clear st.points])
      redoStack := [] }
  else
    { st with points := [] }

/-- SessionState.undo (heatmap.js lines 559-573): returns false on an
empty undo stack; otherwise pops the action, pushes it on the redo stack,
trims the redo stack, and applies the inverse effect: add pops the last
point, clear restores the snapshot. -/
def undo (vcfg : ValidationConfig) (st : SessionState) : Bool × SessionState :=
  match st.undoStack.getLast? with
  | none => (false, st)
  | some action =>
    let points' : List Point :=
      match action with
      | Action.add _ => st.points.dropLast
      | Action.clear ps => ps
    (true,
      { st with
        points := points'
        undoStack := st.undoStack.dropLast
        redoStack := trimStack vcfg (st.redoStack ++ [action]) })

/-- SessionState.redo (heatmap.js lines 579-593): returns false on an
empty redo stack; otherwise pops the action, pushes it on the undo stack,
trims the undo stack, and applies the forward effect: add appends the
stored point, clear empties points. -/
def redo (vcfg : ValidationConfig) (st : SessionState) : Bool × SessionState :=
  match st.redoStack.getLast? with
  | none => (false, st)
  | some action =>
    let points' : List Point :=
      match action with
      | Action.add p => st.points ++ [p]
      | Action.clear _ => []
    (true,
      { st with
        points := points'
        undoStack := trimStack vcfg (st.undoStack ++ [action])
        redoStack := st.redoStack.dropLast })

-- =====================================================
-- MIGRATION PASS OF SessionState.load (heatmap.js lines 634-715)
-- =====================================================

/-- One step of the migration loops in SessionState.load (heatmap.js
lines 642-651 and 661-682): for a point that has a line and lacks the
jerseyNumber field, set it to null and count one; the same for the team
field.  Returns the migrated point, the jersey count and the team count. -/
def migratePoint (p : Point) : Point × ℕ × ℕ :=
  let jersey : Option (Option String) × ℕ :=
    if p.line.isSome = true ∧ p.jerseyNumber = none then (some none, 1)
    else (p.jerseyNumber, 0)
  let team : Option (Option Team) × ℕ :=
    if p.line.isSome = true ∧ p.team = none then (some none, 1)
    else (p.team, 0)
  ({ p with jerseyNumber := jersey.1, team := team.1 }, jersey.2, team.2)

/-- The migration loop over a point list (heatmap.js lines 642-651 and
672-681), keeping order and accumulating the two counts. -/
def migratePoints (pts : List Point) : List Point × ℕ × ℕ :=
  pts.foldr
    (fun p acc =>
      let r := migratePoint p
      (r.1 :: acc.1, r.2.1 + acc.2.1, r.2.2 + acc.2.2))
    ([], 0, 0)

/-- Migration of one stack action (heatmap.js lines 661-682): an add
action migrates its point, a clear action migrates every point of its
snapshot. -/
def migrateAction (a : Action) : Action × ℕ × ℕ :=
  match a with
  | Action.add p =>
    let r := migratePoint p
    (Action.add r.1, r.2)
  | Action.clear ps =>
    let r := migratePoints ps
    (Action.clear r.1, r.2)

/-- The migrateStack closure of SessionState.load (heatmap.js lines
657-685), returning the migrated stack with its jersey and team counts. -/
def migrateStack (stack : List Action) : List Action × ℕ × ℕ :=
  stack.foldr
    (fun a acc =>
      let r := migrateAction a
      (r.1 :: acc.1, r.2.1 + acc.2.1, r.2.2 + acc.2.2))
    ([], 0, 0)

/-- Outcome of the migration pass: the three migrated collections, the
two totals, and whether a migration report is produced. -/
structure MigrationOutcome where
  points : List Point
  undoStack : List Action
  redoStack : List Action
  totalMigrated : ℕ
  totalTeamMigrated : ℕ
  report : Bool
deriving DecidableEq

/-- The migration pass of SessionState.load (heatmap.js lines 639-712).
The field backfill and the per-collection counts follow the source.  The
count aggregation at lines 689-694 of the source is a corrupted
transcription: a stray fragment follows the team sum and totalMigrated is
used without a declaration.  That aggregation is Modelled from the spec:
totalMigrated is pointsMigrated, the jersey counts of the current, undo
and redo collections summed; totalTeamMigrated is the team counts summed;
a report is produced exactly when one of the totals is positive. -/
def migrateLoad (pts : List Point) (us rs : List Action) : MigrationOutcome :=
  let p := migratePoints pts
  let u := migrateStack us
  let r := migrateStack rs
  let pointsMigrated := p.2.1 + u.2.1 + r.2.1
  let teamMigrated := p.2.2 + u.2.2 + r.2.2
  let totalMigrated := pointsMigrated
  let totalTeamMigrated := teamMigrated
  { points := p.1, undoStack := u.1, redoStack := r.1,
    totalMigrated := totalMigrated, totalTeamMigrated := totalTeamMigrated,
    report := if 0 < totalMigrated ∨ 0 < totalTeamMigrated then true else false }

-- =====================================================
-- DOCUMENT VALIDATION (heatmap.js lines 1716-1738)
-- =====================================================

/-- The rotation field of a point in a document being validated, as the
source observes it: undefined (absent), null, a number, or some other
present non-numeric value (a string, a boolean, an object) that fails the
typeof number test. -/
inductive JSRotation
  | undefined
  | null
  | number (value : ℚ)
  | nonNumeric
deriving DecidableEq

/-- A point as it sits in a document being validated: x and y are JS
values whose typeof number test may fail, so a numeric value is some and
anything else is none (either way the source rejects); rotation keeps the
full distinction the source observes, because null and undefined are
accepted while a present non-numeric rotation is rejected. -/
structure RawPoint where
  x : Option ℚ
  y : Option ℚ
  rotation : JSRotation
deriving DecidableEq

/-- The errors FileManager.validatePoint throws, each carrying the point
index named in the message. -/
inductive PointError
  | notAnObject (index : ℕ)
  | missingXY (index : ℕ)
  | invalidRotation (index : ℕ)
deriving DecidableEq

/-- FileManager.validatePoint (heatmap.js lines 1716-1738): reject when x
or y is not a number; out-of-bounds coordinates only produce a console
warning, never a rejection, so they do not appear here; a rotation that
is null or undefined is skipped; any other rotation is rejected when it
is not a number (the typeof test at line 1734) or when it lies outside
minRotation to maxRotation — the source tests typeof and the numeric
range, nothing about integrality. -/
def validatePoint (p : RawPoint) (index : ℕ) : Except PointError Unit :=
  if p.x.isSome = false ∨ p.y.isSome = false then
    Except.error (PointError.missingXY index)
  else
    match p.rotation with
    | JSRotation.null => Except.ok ()
    | JSRotation.undefined => Except.ok ()
    | JSRotation.nonNumeric => Except.error (PointError.invalidRotation index)
    | JSRotation.number r =>
      if r < CONFIG_validation.minRotation ∨ CONFIG_validation.maxRotation < r then
        Except.error (PointError.invalidRotation index)
      else
        Except.ok ()

-- =====================================================
-- GRID GEOMETRY (heatmap.js lines 287-408)
-- =====================================================

/-- GridGeometry holds the configuration and the mode it was constructed
with (heatmap.js lines 288-296). -/
structure GridGeometry where
  grid : GridConfig
  mode : Mode
deriving DecidableEq

/-- The scale getter (heatmap.js lines 298-301): canvas width in pixels
divided by court width in meters; the body never reads the mode. -/
def scale (g : GridGeometry) : ℚ :=
  g.grid.canvasSize / g.grid.size

/-- The toFixed(2) applied by pixelsToMeters, modelled as the rational
value of the rounded two-decimal string. -/
def toFixed2 (q : ℚ) : ℚ :=
  (round (q * 100) : ℚ) / 100

/-- GridGeometry.pixelsToMeters (heatmap.js lines 392-397): x is px over
scale and y is py over scale minus 3, each then passed through
toFixed(2). -/
def pixelsToMeters (g : GridGeometry) (px py : ℚ) : ℚ × ℚ :=
  (toFixed2 (px / scale g), toFixed2 (py / scale g - 3))

-- =====================================================
-- ROTATION SELECTION (heatmap.js lines 2903-2924)
-- =====================================================

/-- The HeatmapApp fields read and written by handleRotationClick. -/
structure AppState where
  isViewOnly : Bool
  trackRotation : Bool
  currentRotation : ℕ
  activeRotationFilters : Finset ℕ
deriving DecidableEq

/-- HeatmapApp.handleRotationClick (heatmap.js lines 2903-2924) with the
data-rotation attribute of the clicked button already parsed: ignored in view-only mode
or when rotation tracking is off; otherwise the clicked value becomes the
current rotation, and when at least one rotation filter is active the
value is additionally inserted into the filter set (Set.add, never a
removal). -/
def handleRotationClick (st : AppState) (rotation : ℕ) : AppState :=
  if st.isViewOnly = true then st
  else if st.trackRotation = false then st
  else
    let st' := { st with currentRotation := rotation }
    if 0 < st'.activeRotationFilters.card then
      { st' with activeRotationFilters := insert rotation st'.activeRotationFilters }
    else
      st'

-- =====================================================
-- COMBINING FILES (heatmap.js lines 2774-2845)
-- =====================================================

/-- One entry of the combine operation: the file name shown in error
messages together with the mode and points of the loaded session, the fields
handleCombineFiles reads. -/
structure CombineFile where
  name : String
  mode : Mode
  points : List Point
deriving DecidableEq

/-- The failure alerts of handleCombineFiles: fewer than two files
selected, a file whose mode differs from the selected combine mode
(naming the file), or a file whose mode differs from the mode of the first file
(naming the file). -/
inductive CombineError
  | tooFewFiles
  | modeMismatch (fileName : String) (fileMode targetMode : Mode)
  | modeMismatchFirst (fileName : String) (fileMode firstMode : Mode)
deriving DecidableEq

/-- The combined data built by handleCombineFiles (heatmap.js lines
2820-2825). -/
structure CombinedData where
  mode : Mode
  points : List Point
  undoStack : List Action
  redoStack : List Action
deriving DecidableEq

/-- Outcome of handleCombineFiles: an error alert, a cancellation at the
large-point-count confirmation gate, or the combined data. -/
inductive CombineOutcome
  | combineError (e : CombineError)
  | cancelled
  | ok (data : CombinedData)
deriving DecidableEq

/-- The mode-validation loop of handleCombineFiles (heatmap.js lines
2790-2800): walk the files in order; the first file whose mode differs
from the selected combine mode yields a mode-mismatch error naming it;
otherwise a file whose mode differs from the mode of the first file yields the
second error form. -/
def checkModes (combineMode firstMode : Mode) : List CombineFile → Option CombineError
  | [] => none
  | f :: rest =>
    if f.mode ≠ combineMode then
      some (CombineError.modeMismatch f.name f.mode combineMode)
    else if f.mode ≠ firstMode then
      some (CombineError.modeMismatchFirst f.name f.mode firstMode)
    else
      checkModes combineMode firstMode rest

/-- HeatmapApp.handleCombineFiles (heatmap.js lines 2774-2845) after the
files have been loaded and validated: reject fewer than two files; reject
at the first mode mismatch, building no combined data; concatenate the
points arrays in list order; when the total exceeds maxPointCount a
confirm dialog gates the operation, modelled by the proceedWhenLarge
argument; on success the combined data carries the mode of the first file and
empty undo and redo stacks. -/
def handleCombineFiles (vcfg : ValidationConfig) (proceedWhenLarge : Bool)
    (combineMode : Mode) (files : List CombineFile) : CombineOutcome :=
  if files.length < 2 then
    CombineOutcome.combineError CombineError.tooFewFiles
  else
    match files with
    | [] => CombineOutcome.combineError CombineError.tooFewFiles
    | f₀ :: _ =>
      match checkModes combineMode f₀.mode files with
      | some e => CombineOutcome.combineError e
      | none =>
        let combinedPoints := (files.map CombineFile.points).flatten
        if vcfg.maxPointCount < combinedPoints.length ∧ proceedWhenLarge = false then
          CombineOutcome.cancelled
        else
          CombineOutcome.ok
            { mode := f₀.mode, points := combinedPoints,
              undoStack := [], redoStack := [] }

-- =====================================================
-- SAMPLE VALUES FOR WITNESSES
-- =====================================================

/-- A plain simple-mode point at the canvas center with rotation 3. -/
def samplePoint : Point :=
  { x := 300, y := 300, rotation := some 3, line := none,
    jerseyNumber := none, team := none }

/-- A second plain point. -/
def samplePoint2 : Point :=
  { x := 120, y := 240, rotation := some 5, line := none,
    jerseyNumber := none, team := none }

/-- A third plain point. -/
def samplePoint3 : Point :=
  { x := 60, y := 60, rotation := none, line := none,
    jerseyNumber := none, team := none }

/-- A fresh empty session. -/
def emptySession : SessionState :=
  { name := "", mode := Mode.simpleHeatmap, points := [], undoStack := [],
    redoStack := [], isViewOnly := false }

/-- A session holding one point whose undo stack records its addition. -/
def oneAddSession : SessionState :=
  { name := "", mode := Mode.simpleHeatmap, points := [samplePoint],
    undoStack := [Action.add samplePoint], redoStack := [], isViewOnly := false }

/-- An inconsistent but loadable session: the undo stack records an add
action although points is empty.  FileManager.validateSessionData checks
only that undoStack is an array, so a document with these contents loads. -/
def inconsistentSession : SessionState :=
  { name := "", mode := Mode.simpleHeatmap, points := [],
    undoStack := [Action.add samplePoint], redoStack := [], isViewOnly := false }

-- =====================================================
-- CLAIM C9: redo stack emptied by mutating actions
-- =====================================================

/-- C9: after every addPoint the redo stack is empty; clearAllPoints on a
non-empty point sequence also empties the redo stack; clearAllPoints on
an empty point sequence is a no-op leaving the whole state, in particular
both stacks, unchanged. -/
theorem c9_redo_cleared (vcfg : ValidationConfig) (st : SessionState) (p : Point) :
    (addPoint vcfg st p).redoStack = [] ∧
    (st.points ≠ [] → (clearAllPoints vcfg st).redoStack = []) ∧
    (st.points = [] → clearAllPoints vcfg st = st) := by
  refine ⟨rfl, ?_, ?_⟩
  · intro h
    have hlen : 0 < st.points.length := List.length_pos.mpr h
    simp [clearAllPoints, hlen]
  · intro h
    cases st with
    | mk name mode points undoStack redoStack isViewOnly =>
      subst h
      simp [clearAllPoints]

/-- Witness for C9 at concrete inputs: a one-point session for addPoint
and the non-empty clear, the empty session for the no-op clear. -/
theorem c9_redo_cleared_witness :
    (addPoint CONFIG_validation oneAddSession samplePoint2).redoStack = [] ∧
    oneAddSession.points ≠ [] ∧
    (clearAllPoints CONFIG_validation oneAddSession).redoStack = [] ∧
    emptySession.points = [] ∧
    clearAllPoints CONFIG_validation emptySession = emptySession := by
  have h1 := (c9_redo_cleared CONFIG_validation oneAddSession samplePoint2).1
  have hne : oneAddSession.points ≠ [] := by decide
  have h2 := (c9_redo_cleared CONFIG_validation oneAddSession samplePoint2).2.1 hne
  have hee : emptySession.points = [] := by decide
  have h3 := (c9_redo_cleared CONFIG_validation emptySession samplePoint2).2.2 hee
  exact ⟨h1, hne, h2, hee, h3⟩

-- =====================================================
-- CLAIM C10: assertions are dead under the shipped configuration
-- =====================================================

/-- C10: under the shipped configuration with CONFIG.debug.enabled false,
assert never throws whatever its condition, and addPoint with its asserts
completes without throwing for every state and every point, in particular
when the rotation of the point is not a number, returning the ordinary state
update. -/
theorem c10_assert_never_throws :
    (∀ condition : Bool, assertCheck CONFIG_debug condition = Except.ok ()) ∧
    (∀ (vcfg : ValidationConfig) (st : SessionState) (p : Point),
      addPointChecked CONFIG_debug vcfg st p = Except.ok (addPoint vcfg st p)) ∧
    (∀ (vcfg : ValidationConfig) (st : SessionState) (p : Point),
      p.rotation = none →
        addPointChecked CONFIG_debug vcfg st p = Except.ok (addPoint vcfg st p)) := by
  refine ⟨?_, ?_, ?_⟩
  · intro condition
    simp [assertCheck, CONFIG_debug]
  · intro vcfg st p
    rfl
  · intro vcfg st p _
    rfl

-- =====================================================
-- CLAIM C3: sticky auto-inclusion of the current rotation
-- =====================================================

/-- C3: selecting rotation r while at least one rotation filter is active
(outside view-only mode, with rotation tracking on) makes r the current
rotation and inserts r into the filter set; the previous filters all
remain (strict addition, nothing removed), and when r was already present
the set is unchanged rather than r being removed. -/
theorem c3_sticky_rotation (st : AppState) (r : ℕ)
    (hview : st.isViewOnly = false) (htrack : st.trackRotation = true)
    (hactive : 0 < st.activeRotationFilters.card) :
    (handleRotationClick st r).currentRotation = r ∧
    (handleRotationClick st r).activeRotationFilters
      = insert r st.activeRotationFilters ∧
    st.activeRotationFilters ⊆ (handleRotationClick st r).activeRotationFilters ∧
    (r ∈ st.activeRotationFilters →
      (handleRotationClick st r).activeRotationFilters = st.activeRotationFilters) := by
  have hres : handleRotationClick st r
      = { st with
          currentRotation := r
          activeRotationFilters := insert r st.activeRotationFilters } := by
    simp [handleRotationClick, hview, htrack, hactive]
  refine ⟨by rw [hres], by rw [hres], ?_, ?_⟩
  · rw [hres]
    exact Finset.subset_insert r st.activeRotationFilters
  · intro hmem
    rw [hres]
    simpa using Finset.insert_eq_self.mpr hmem

/-- Witness for C3, the scenario of the spec: filter set containing only
rotation 2, selecting current rotation 4 yields the set with 2 and 4. -/
theorem c3_sticky_rotation_witness :
    (false = false ∧ true = true ∧
      0 < ({2} : Finset ℕ).card) ∧
    (handleRotationClick
        { isViewOnly := false, trackRotation := true, currentRotation := 1,
          activeRotationFilters := {2} } 4).activeRotationFilters = {2, 4} := by
  have h := (c3_sticky_rotation
      { isViewOnly := false, trackRotation := true, currentRotation := 1,
        activeRotationFilters := {2} } 4 rfl rfl (by decide)).2.1
  refine ⟨⟨rfl, rfl, by decide⟩, h.trans (by decide)⟩

-- =====================================================
-- CLAIM C7: rotation validation checks type and range, not integrality
-- =====================================================

/-- Counterexample to C7 as stated: the point with rotation 2.5 has its
rotation present and non-null, 2.5 is not an integer though it lies
between 1 and 6, and validatePoint accepts the point instead of rejecting
it. -/
theorem c7_counterexample :
    (({ x := some 0, y := some 0, rotation := JSRotation.number (5 / 2) } :
        RawPoint).rotation = JSRotation.number (5 / 2)) ∧
    (¬ ∃ k : ℤ, (5 / 2 : ℚ) = (k : ℚ)) ∧
    (1 ≤ (5 / 2 : ℚ) ∧ (5 / 2 : ℚ) ≤ 6) ∧
    validatePoint { x := some 0, y := some 0, rotation := JSRotation.number (5 / 2) } 0
      = Except.ok () := by
  refine ⟨rfl, ?_, by norm_num, ?_⟩
  · rintro ⟨k, hk⟩
    have h : (5 : ℚ) = (k : ℚ) * 2 := by
      field_simp at hk
      linarith
    have h' : (5 : ℤ) = k * 2 := by exact_mod_cast h
    omega
  · simp [validatePoint, CONFIG_validation]
    norm_num

/-- C7 amended: validatePoint rejects every point whose rotation is
present and non-null and is not a number in the range 1 to 6 — both a
present non-numeric rotation and a numeric rotation outside the range —
and accepts every point whose rotation is absent, null, or any number in
that range, integer or not: integrality is never tested. -/
theorem c7_rotation_range (p : RawPoint) (i : ℕ)
    (hx : p.x.isSome = true) (hy : p.y.isSome = true) :
    (p.rotation = JSRotation.null ∨ p.rotation = JSRotation.undefined →
      validatePoint p i = Except.ok ()) ∧
    (p.rotation = JSRotation.nonNumeric →
      validatePoint p i = Except.error (PointError.invalidRotation i)) ∧
    (∀ r : ℚ, p.rotation = JSRotation.number r → (r < 1 ∨ 6 < r) →
      validatePoint p i = Except.error (PointError.invalidRotation i)) ∧
    (∀ r : ℚ, p.rotation = JSRotation.number r → 1 ≤ r → r ≤ 6 →
      validatePoint p i = Except.ok ()) := by
  refine ⟨?_, ?_, ?_, ?_⟩
  · rintro (h | h) <;> simp [validatePoint, hx, hy, h]
  · intro h
    simp [validatePoint, hx, hy, h]
  · intro r h hout
    have : r < CONFIG_validation.minRotation ∨ CONFIG_validation.maxRotation < r := by
      simpa [CONFIG_validation] using hout
    simp [validatePoint, hx, hy, h, this]
  · intro r h h1 h6
    have h1' : ¬ r < CONFIG_validation.minRotation := by
      simp [CONFIG_validation]
      exact h1
    have h6' : ¬ CONFIG_validation.maxRotation < r := by
      simp [CONFIG_validation]
      exact h6
    simp [validatePoint, hx, hy, h, h1', h6']

/-- Witness for C7 amended at concrete inputs: a point with rotation null
is accepted, and a point whose rotation is present but not a number is
rejected, via the first two conjuncts of the theorem. -/
theorem c7_rotation_range_witness :
    ((({ x := some 300, y := some 300, rotation := JSRotation.null } :
        RawPoint)).x.isSome = true) ∧
    ((({ x := some 300, y := some 300, rotation := JSRotation.null } :
        RawPoint)).y.isSome = true) ∧
    validatePoint { x := some 300, y := some 300, rotation := JSRotation.null } 0
      = Except.ok () ∧
    validatePoint { x := some 300, y := some 300, rotation := JSRotation.nonNumeric } 1
      = Except.error (PointError.invalidRotation 1) := by
  refine ⟨rfl, rfl, ?_, ?_⟩
  · exact (c7_rotation_range
      { x := some 300, y := some 300, rotation := JSRotation.null } 0 rfl rfl).1
      (Or.inl rfl)
  · exact (c7_rotation_range
      { x := some 300, y := some 300, rotation := JSRotation.nonNumeric } 1 rfl rfl).2.1
      rfl

-- =====================================================
-- CLAIM C8: pixelsToMeters and the mode-independent scale
-- =====================================================

/-- The shipped simple-mode geometry. -/
def sampleGeometry : GridGeometry :=
  { grid := CONFIG_grid, mode := Mode.simpleHeatmap }

/-- Counterexample to C8 as stated: at pixel input x 0.1, the exact value
0.1 divided by scale is 1/400, but pixelsToMeters rounds through
toFixed(2) and returns 0 for the x component, so the returned pair is not
the pair of exact values the claim gives for every input. -/
theorem c8_counterexample :
    (pixelsToMeters sampleGeometry (1 / 10) 0).1 = 0 ∧
    (1 / 10 : ℚ) / scale sampleGeometry ≠ 0 ∧
    pixelsToMeters sampleGeometry (1 / 10) 0
      ≠ ((1 / 10 : ℚ) / scale sampleGeometry,
         (0 : ℚ) / scale sampleGeometry - 3) := by
  have hsc : scale sampleGeometry = 40 := by
    norm_num [scale, sampleGeometry, CONFIG_grid]
  have hx : (pixelsToMeters sampleGeometry (1 / 10) 0).1 = 0 := by
    simp only [pixelsToMeters, toFixed2, hsc]
    norm_num
  have hne : (1 / 10 : ℚ) / scale sampleGeometry ≠ 0 := by
    rw [hsc]
    norm_num
  refine ⟨hx, hne, ?_⟩
  intro hpair
  have := congrArg Prod.fst hpair
  rw [hx] at this
  exact hne this.symm

/-- C8 amended: pixelsToMeters returns px over scale and py over scale
minus 3 each rounded to two decimals, with scale equal to canvasSize over
gridSize whatever the mode; whenever those two exact values are
representable with two decimals they are returned exactly, so in
particular pixelsToMeters(120,120) under the shipped grid is (3, 0). -/
theorem c8_pixels_to_meters (grid : GridConfig) (mode : Mode) (px py : ℚ)
    (hx : ∃ a : ℤ, px / scale { grid := grid, mode := mode } * 100 = (a : ℚ))
    (hy : ∃ b : ℤ, (py / scale { grid := grid, mode := mode } - 3) * 100 = (b : ℚ)) :
    scale { grid := grid, mode := mode } = grid.canvasSize / grid.size ∧
    scale { grid := grid, mode := mode }
      = scale { grid := grid, mode := Mode.simpleHeatmap } ∧
    pixelsToMeters { grid := grid, mode := mode } px py
      = (px / scale { grid := grid, mode := mode },
         py / scale { grid := grid, mode := mode } - 3) := by
  have exact2 : ∀ q : ℚ, (∃ a : ℤ, q * 100 = (a : ℚ)) → toFixed2 q = q := by
    intro q hq
    obtain ⟨a, ha⟩ := hq
    have : round (q * 100) = a := by
      rw [ha]
      exact round_intCast a
    rw [toFixed2, this]
    have h100 : (100 : ℚ) ≠ 0 := by norm_num
    field_simp
    linarith [ha]
  refine ⟨rfl, rfl, ?_⟩
  simp only [pixelsToMeters]
  rw [exact2 _ hx, exact2 _ hy]

/-- Witness for C8 amended, the concrete instance of the spec: with the
shipped 600 px canvas and 15 m grid, scale is 40 and
pixelsToMeters(120,120) is (3, 0). -/
theorem c8_pixels_to_meters_witness :
    (∃ a : ℤ, (120 : ℚ) / scale sampleGeometry * 100 = (a : ℚ)) ∧
    (∃ b : ℤ, ((120 : ℚ) / scale sampleGeometry - 3) * 100 = (b : ℚ)) ∧
    scale sampleGeometry = 40 ∧
    pixelsToMeters sampleGeometry 120 120 = (3, 0) := by
  have hsc : scale sampleGeometry = 40 := by
    norm_num [scale, sampleGeometry, CONFIG_grid]
  have hx : ∃ a : ℤ, (120 : ℚ) / scale sampleGeometry * 100 = (a : ℚ) := by
    refine ⟨300, ?_⟩
    rw [hsc]
    norm_num
  have hy : ∃ b : ℤ, ((120 : ℚ) / scale sampleGeometry - 3) * 100 = (b : ℚ) := by
    refine ⟨0, ?_⟩
    rw [hsc]
    norm_num
  have h : pixelsToMeters sampleGeometry 120 120
      = (120 / scale sampleGeometry, 120 / scale sampleGeometry - 3) :=
    (c8_pixels_to_meters CONFIG_grid Mode.simpleHeatmap 120 120 hx hy).2.2
  refine ⟨hx, hy, hsc, h.trans ?_⟩
  rw [hsc]
  norm_num

-- =====================================================
-- CLAIM C1: undo then redo
-- =====================================================

/-- Counterexample to C1 as stated: the inconsistent session has a
non-empty undo stack and is small enough that no trimming occurs during
the sequence, yet undo followed by redo changes points from the empty
list to a one-point list, so the pair of calls is not the identity on
every ledger state.  Such a state is loadable, because
validateSessionData checks only that undoStack is an array. -/
theorem c1_counterexample :
    inconsistentSession.undoStack ≠ [] ∧
    trimStack CONFIG_validation (inconsistentSession.redoStack ++ [Action.add samplePoint])
      = inconsistentSession.redoStack ++ [Action.add samplePoint] ∧
    trimStack CONFIG_validation inconsistentSession.undoStack
      = inconsistentSession.undoStack ∧
    (undo CONFIG_validation inconsistentSession).1 = true ∧
    (redo CONFIG_validation (undo CONFIG_validation inconsistentSession).2).1 = true ∧
    (redo CONFIG_validation (undo CONFIG_validation inconsistentSession).2).2.points
      ≠ inconsistentSession.points := by
  refine ⟨by decide, by decide, by decide, by decide, by decide, by decide⟩

/-- The last element of a list named by getLast? can be split off. -/
theorem dropLast_append_of_getLast? {α : Type} {l : List α} {a : α}
    (h : l.getLast? = some a) : l.dropLast ++ [a] = l :=
  List.dropLast_append_getLast? a (by rw [h]; exact rfl)

/-- C1 amended: undo followed by redo is the identity on points,
undoStack and redoStack, and both calls return true, for every ledger
state whose undo stack is non-empty, whose top undo action is consistent
with points — a top add action stores the last element of points, a top
clear action implies points is empty — and in which no trimming occurs
during the sequence. -/
theorem c1_undo_redo_identity (vcfg : ValidationConfig) (st : SessionState) (a : Action)
    (htop : st.undoStack.getLast? = some a)
    (hconsAdd : ∀ p, a = Action.add p → st.points.getLast? = some p)
    (hconsClear : ∀ ps, a = Action.clear ps → st.points = [])
    (hnt₁ : trimStack vcfg (st.redoStack ++ [a]) = st.redoStack ++ [a])
    (hnt₂ : trimStack vcfg st.undoStack = st.undoStack) :
    (undo vcfg st).1 = true ∧
    (redo vcfg (undo vcfg st).2).1 = true ∧
    (redo vcfg (undo vcfg st).2).2 = st := by
  have hus : st.undoStack.dropLast ++ [a] = st.undoStack :=
    dropLast_append_of_getLast? htop
  cases a with
  | add p =>
    have hp : st.points.getLast? = some p := hconsAdd p rfl
    have hpts : st.points.dropLast ++ [p] = st.points :=
      dropLast_append_of_getLast? hp
    have hu : undo vcfg st =
        (true,
          { st with
            points := st.points.dropLast
            undoStack := st.undoStack.dropLast
            redoStack := st.redoStack ++ [Action.add p] }) := by
      simp only [undo, htop, hnt₁]
    refine ⟨by rw [hu], ?_, ?_⟩
    · rw [hu]
      simp only [redo, List.getLast?_concat]
    · rw [hu]
      simp only [redo, List.getLast?_concat, List.dropLast_concat, hus, hpts, hnt₂]
  | clear ps =>
    have hpts : st.points = [] := hconsClear ps rfl
    have hu : undo vcfg st =
        (true,
          { st with
            points := ps
            undoStack := st.undoStack.dropLast
            redoStack := st.redoStack ++ [Action.clear ps] }) := by
      simp only [undo, htop, hnt₁]
    refine ⟨by rw [hu], ?_, ?_⟩
    · rw [hu]
      simp only [redo, List.getLast?_concat]
    · rw [hu]
      simp only [redo, List.getLast?_concat, List.dropLast_concat, hus, hnt₂]
      rw [← hpts]

/-- Witness for C1 amended: the consistent one-point session, whose top
undo action added its point; undo then redo returns it unchanged. -/
theorem c1_undo_redo_identity_witness :
    oneAddSession.undoStack.getLast? = some (Action.add samplePoint) ∧
    oneAddSession.points.getLast? = some samplePoint ∧
    trimStack CONFIG_validation (oneAddSession.redoStack ++ [Action.add samplePoint])
      = oneAddSession.redoStack ++ [Action.add samplePoint] ∧
    trimStack CONFIG_validation oneAddSession.undoStack = oneAddSession.undoStack ∧
    (undo CONFIG_validation oneAddSession).1 = true ∧
    (redo CONFIG_validation (undo CONFIG_validation oneAddSession).2).1 = true ∧
    (redo CONFIG_validation (undo CONFIG_validation oneAddSession).2).2 = oneAddSession := by
  have h := c1_undo_redo_identity CONFIG_validation oneAddSession (Action.add samplePoint)
    (by decide)
    (by intro p hp; cases hp; decide)
    (by intro ps hps; cases hps)
    (by decide) (by decide)
  exact ⟨by decide, by decide, by decide, by decide, h.1, h.2.1, h.2.2⟩

-- =====================================================
-- CLAIM C2: the trim policy
-- =====================================================

/-- Trimming keeps a suffix: it only ever drops entries from the front. -/
theorem trimStack_is_suffix (vcfg : ValidationConfig) (stack : List Action) :
    ∃ k, trimStack vcfg stack = stack.drop k := by
  unfold trimStack
  split
  · exact ⟨stack.length - vcfg.maxUndoStackSize, rfl⟩
  · exact ⟨0, (List.drop_zero stack).symm⟩

/-- With auto-trim on and a positive bound, a push followed by the trim
leaves at most maxUndoStackSize entries, whatever the starting length. -/
theorem trimStack_push_length_le (vcfg : ValidationConfig)
    (hA : vcfg.autoTrimUndoStack = true) (hM : 0 < vcfg.maxUndoStackSize)
    (stack : List Action) (a : Action) :
    (trimStack vcfg (stack ++ [a])).length ≤ vcfg.maxUndoStackSize := by
  unfold trimStack
  split
  · rename_i h
    rw [List.length_drop]
    omega
  · rename_i h
    push_neg at h
    have := h hA hM
    omega

/-- The undo stack after a run of addPoint calls, starting from a stack
already within the bound: it is the suffix of the old stack followed by
the pushed add actions, trimmed from the front to the bound. -/
theorem foldl_addPoint_undoStack (vcfg : ValidationConfig)
    (hA : vcfg.autoTrimUndoStack = true) (hM : 0 < vcfg.maxUndoStackSize) :
    ∀ (ps : List Point) (st : SessionState),
      st.undoStack.length ≤ vcfg.maxUndoStackSize →
      (List.foldl (addPoint vcfg) st ps).undoStack
        = (st.undoStack ++ ps.map Action.add).drop
            ((st.undoStack.length + ps.length) - vcfg.maxUndoStackSize) := by
  intro ps
  induction ps with
  | nil =>
    intro st hle
    simp only [List.foldl_nil, List.map_nil, List.append_nil, List.length_nil,
      Nat.add_zero]
    rw [Nat.sub_eq_zero_of_le hle, List.drop_zero]
  | cons p ps' ih =>
    intro st hle
    rcases Nat.lt_or_ge st.undoStack.length vcfg.maxUndoStackSize with hlt | hge
    · have hnotrim : trimStack vcfg (st.undoStack ++ [Action.add p])
          = st.undoStack ++ [Action.add p] := by
        unfold trimStack
        rw [if_neg]
        intro hcond
        rw [List.length_append, List.length_singleton] at hcond
        omega
      have hstep : (addPoint vcfg st p).undoStack = st.undoStack ++ [Action.add p] := by
        simp only [addPoint, hnotrim]
      have hlen' : (addPoint vcfg st p).undoStack.length ≤ vcfg.maxUndoStackSize := by
        rw [hstep, List.length_append, List.length_singleton]
        omega
      have := ih (addPoint vcfg st p) hlen'
      rw [List.foldl_cons, this, hstep]
      rw [List.length_append, List.length_singleton, List.map_cons]
      rw [List.append_assoc, List.singleton_append]
      congr 1
      simp only [List.length_cons]
      omega
    · have heq : st.undoStack.length = vcfg.maxUndoStackSize := Nat.le_antisymm hle hge
      have hlen1 : (st.undoStack ++ [Action.add p]).length
          = vcfg.maxUndoStackSize + 1 := by
        rw [List.length_append, List.length_singleton, heq]
      have htrim : trimStack vcfg (st.undoStack ++ [Action.add p])
          = (st.undoStack ++ [Action.add p]).drop 1 := by
        unfold trimStack
        rw [if_pos]
        · rw [hlen1]
          congr 1
          omega
        · refine ⟨hA, hM, ?_⟩
          rw [hlen1]
          omega
      have hstep : (addPoint vcfg st p).undoStack
          = (st.undoStack ++ [Action.add p]).drop 1 := by
        simp only [addPoint, htrim]
      have hlen' : (addPoint vcfg st p).undoStack.length ≤ vcfg.maxUndoStackSize := by
        rw [hstep, List.length_drop, hlen1]
        omega
      have hlend : ((st.undoStack ++ [Action.add p]).drop 1).length
          = vcfg.maxUndoStackSize := by
        rw [List.length_drop, hlen1]
        omega
      have hsplit : ((st.undoStack ++ [Action.add p]) ++ ps'.map Action.add).drop 1
          = (st.undoStack ++ [Action.add p]).drop 1 ++ ps'.map Action.add := by
        rw [List.drop_append_eq_append_drop, hlen1,
          show 1 - (vcfg.maxUndoStackSize + 1) = 0 by omega, List.drop_zero]
      have := ih (addPoint vcfg st p) hlen'
      rw [List.foldl_cons, this, hstep, hlend]
      rw [show vcfg.maxUndoStackSize + ps'.length - vcfg.maxUndoStackSize
          = ps'.length by omega]
      rw [← hsplit, List.drop_drop]
      rw [List.append_assoc, List.singleton_append, List.map_cons]
      congr 1
      simp only [List.length_cons]
      omega

/-- C2: with auto-trim on and a positive bound maxUndoStackSize, a push
on either stack followed by its trim never leaves more than the bound,
and only front entries are evicted (the result is a suffix of the pushed
stack); and a run of more than maxUndoStackSize addPoint calls from any
state leaves exactly the add actions of the most recent
maxUndoStackSize calls, in order. -/
theorem c2_trim_policy (vcfg : ValidationConfig)
    (hA : vcfg.autoTrimUndoStack = true) (hM : 0 < vcfg.maxUndoStackSize)
    (st : SessionState) (ps : List Point)
    (hN : vcfg.maxUndoStackSize < ps.length) :
    (∀ (stack : List Action) (a : Action),
      (trimStack vcfg (stack ++ [a])).length ≤ vcfg.maxUndoStackSize ∧
      ∃ k, trimStack vcfg (stack ++ [a]) = (stack ++ [a]).drop k) ∧
    (List.foldl (addPoint vcfg) st ps).undoStack
      = (ps.map Action.add).drop (ps.length - vcfg.maxUndoStackSize) ∧
    (List.foldl (addPoint vcfg) st ps).undoStack.length = vcfg.maxUndoStackSize := by
  have hmain : (List.foldl (addPoint vcfg) st ps).undoStack
      = (ps.map Action.add).drop (ps.length - vcfg.maxUndoStackSize) := by
    cases ps with
    | nil => simp at hN
    | cons p ps' =>
      have hn' : vcfg.maxUndoStackSize ≤ ps'.length := by
        simp only [List.length_cons] at hN
        omega
      have hlen1 : (addPoint vcfg st p).undoStack.length ≤ vcfg.maxUndoStackSize := by
        simp only [addPoint]
        exact trimStack_push_length_le vcfg hA hM st.undoStack (Action.add p)
      have := foldl_addPoint_undoStack vcfg hA hM ps' (addPoint vcfg st p) hlen1
      rw [List.foldl_cons, this]
      set us₁ := (addPoint vcfg st p).undoStack with hus₁
      have harith : us₁.length + ps'.length - vcfg.maxUndoStackSize
          = us₁.length + (ps'.length - vcfg.maxUndoStackSize) := by
        omega
      rw [harith, List.drop_append_eq_append_drop]
      rw [List.drop_eq_nil_of_le (by omega), List.nil_append]
      rw [show us₁.length + (ps'.length - vcfg.maxUndoStackSize) - us₁.length
          = ps'.length - vcfg.maxUndoStackSize by omega]
      rw [List.map_cons]
      rw [show (p :: ps').length - vcfg.maxUndoStackSize
          = (ps'.length - vcfg.maxUndoStackSize) + 1 by
        simp only [List.length_cons]
        omega]
      rw [List.drop_succ_cons]
  refine ⟨?_, hmain, ?_⟩
  · intro stack a
    exact ⟨trimStack_push_length_le vcfg hA hM stack a, trimStack_is_suffix vcfg _⟩
  · rw [hmain, List.length_drop, List.length_map]
    omega

/-- Witness for C2 at a concrete configuration with bound 2 and auto-trim
on: three addPoint calls from the empty session keep exactly the add
actions of the last two points. -/
theorem c2_trim_policy_witness :
    ({ CONFIG_validation with maxUndoStackSize := 2 } : ValidationConfig).autoTrimUndoStack
        = true ∧
    0 < ({ CONFIG_validation with maxUndoStackSize := 2 } : ValidationConfig).maxUndoStackSize ∧
    ({ CONFIG_validation with maxUndoStackSize := 2 } : ValidationConfig).maxUndoStackSize
        < [samplePoint, samplePoint2, samplePoint3].length ∧
    (List.foldl (addPoint { CONFIG_validation with maxUndoStackSize := 2 }) emptySession
        [samplePoint, samplePoint2, samplePoint3]).undoStack
      = [Action.add samplePoint2, Action.add samplePoint3] ∧
    (List.foldl (addPoint { CONFIG_validation with maxUndoStackSize := 2 }) emptySession
        [samplePoint, samplePoint2, samplePoint3]).undoStack.length = 2 := by
  have h := c2_trim_policy { CONFIG_validation with maxUndoStackSize := 2 }
    rfl (by decide) emptySession [samplePoint, samplePoint2, samplePoint3] (by decide)
  refine ⟨rfl, by decide, by decide, ?_, h.2.2⟩
  rw [h.2.1]
  decide

-- =====================================================
-- CLAIM C4: migration is idempotent
-- =====================================================

/-- A point the migration pass leaves alone: when it has a line, both the
jerseyNumber field and the team field are present. -/
def PointMigrated (p : Point) : Prop :=
  p.line.isSome = true → (p.jerseyNumber ≠ none ∧ p.team ≠ none)

/-- An action all of whose payload points are migrated. -/
def ActionMigrated : Action → Prop
  | Action.add p => PointMigrated p
  | Action.clear ps => ∀ p ∈ ps, PointMigrated p

/-- migratePoint leaves the line field unchanged. -/
theorem migratePoint_line (p : Point) : (migratePoint p).1.line = p.line := rfl

/-- The output of migratePoint is migrated. -/
theorem migratePoint_migrated (p : Point) : PointMigrated (migratePoint p).1 := by
  intro hline
  rw [migratePoint_line] at hline
  unfold migratePoint
  constructor
  · by_cases h : p.line.isSome = true ∧ p.jerseyNumber = none
    · simp [h]
    · simp only [if_neg h]
      intro hnone
      exact h ⟨hline, hnone⟩
  · by_cases h : p.line.isSome = true ∧ p.team = none
    · simp [h]
    · simp only [if_neg h]
      intro hnone
      exact h ⟨hline, hnone⟩

/-- migratePoint on an already migrated point changes nothing and counts
nothing: field presence, not value, gates the count. -/
theorem migratePoint_of_migrated (p : Point) (h : PointMigrated p) :
    migratePoint p = (p, 0, 0) := by
  unfold migratePoint
  by_cases hline : p.line.isSome = true
  · obtain ⟨hj, ht⟩ := h hline
    rw [if_neg (by intro hc; exact hj hc.2), if_neg (by intro hc; exact ht hc.2)]
  · rw [if_neg (by intro hc; exact hline hc.1), if_neg (by intro hc; exact hline hc.1)]

/-- Unfolding migratePoints on a cons cell. -/
theorem migratePoints_cons (p : Point) (ps : List Point) :
    migratePoints (p :: ps)
      = ((migratePoint p).1 :: (migratePoints ps).1,
         (migratePoint p).2.1 + (migratePoints ps).2.1,
         (migratePoint p).2.2 + (migratePoints ps).2.2) := rfl

/-- Every point produced by migratePoints is migrated. -/
theorem migratePoints_migrated (pts : List Point) :
    ∀ p ∈ (migratePoints pts).1, PointMigrated p := by
  induction pts with
  | nil => intro p hp; simp [migratePoints] at hp
  | cons q qs ih =>
    intro p hp
    rw [migratePoints_cons] at hp
    rcases List.mem_cons.mp hp with h | h
    · rw [h]; exact migratePoint_migrated q
    · exact ih p h

/-- migratePoints on a list of migrated points is the identity with zero
counts. -/
theorem migratePoints_of_migrated (pts : List Point)
    (h : ∀ p ∈ pts, PointMigrated p) : migratePoints pts = (pts, 0, 0) := by
  induction pts with
  | nil => rfl
  | cons q qs ih =>
    rw [migratePoints_cons, migratePoint_of_migrated q (h q (List.mem_cons_self q qs)),
      ih (fun p hp => h p (List.mem_cons_of_mem q hp))]
    simp

/-- Every action produced by migrateAction is migrated. -/
theorem migrateAction_migrated (a : Action) : ActionMigrated (migrateAction a).1 := by
  cases a with
  | add p => exact migratePoint_migrated p
  | clear ps => exact migratePoints_migrated ps

/-- migrateAction on a migrated action is the identity with zero counts. -/
theorem migrateAction_of_migrated (a : Action) (h : ActionMigrated a) :
    migrateAction a = (a, 0, 0) := by
  cases a with
  | add p =>
    show (Action.add (migratePoint p).1, (migratePoint p).2) = (Action.add p, 0, 0)
    rw [migratePoint_of_migrated p h]
  | clear ps =>
    show (Action.clear (migratePoints ps).1, (migratePoints ps).2) = (Action.clear ps, 0, 0)
    rw [migratePoints_of_migrated ps h]

/-- Unfolding migrateStack on a cons cell. -/
theorem migrateStack_cons (a : Action) (stack : List Action) :
    migrateStack (a :: stack)
      = ((migrateAction a).1 :: (migrateStack stack).1,
         (migrateAction a).2.1 + (migrateStack stack).2.1,
         (migrateAction a).2.2 + (migrateStack stack).2.2) := rfl

/-- Every action produced by migrateStack is migrated. -/
theorem migrateStack_migrated (stack : List Action) :
    ∀ a ∈ (migrateStack stack).1, ActionMigrated a := by
  induction stack with
  | nil => intro a ha; simp [migrateStack] at ha
  | cons b bs ih =>
    intro a ha
    rw [migrateStack_cons] at ha
    rcases List.mem_cons.mp ha with h | h
    · rw [h]; exact migrateAction_migrated b
    · exact ih a h

/-- migrateStack on a stack of migrated actions is the identity with zero
counts. -/
theorem migrateStack_of_migrated (stack : List Action)
    (h : ∀ a ∈ stack, ActionMigrated a) : migrateStack stack = (stack, 0, 0) := by
  induction stack with
  | nil => rfl
  | cons b bs ih =>
    rw [migrateStack_cons, migrateAction_of_migrated b (h b (List.mem_cons_self b bs)),
      ih (fun a ha => h a (List.mem_cons_of_mem b ha))]
    simp

/-- C4: the migration pass is idempotent — running it on its own output
adds zero jerseyNumber fields and zero team fields across the current
points and both stack payloads (both totals are zero), produces no
migration report, and leaves all three collections unchanged. -/
theorem c4_migration_idempotent (pts : List Point) (us rs : List Action) :
    (migrateLoad (migrateLoad pts us rs).points (migrateLoad pts us rs).undoStack
        (migrateLoad pts us rs).redoStack).totalMigrated = 0 ∧
    (migrateLoad (migrateLoad pts us rs).points (migrateLoad pts us rs).undoStack
        (migrateLoad pts us rs).redoStack).totalTeamMigrated = 0 ∧
    (migrateLoad (migrateLoad pts us rs).points (migrateLoad pts us rs).undoStack
        (migrateLoad pts us rs).redoStack).report = false ∧
    (migrateLoad (migrateLoad pts us rs).points (migrateLoad pts us rs).undoStack
        (migrateLoad pts us rs).redoStack).points = (migrateLoad pts us rs).points ∧
    (migrateLoad (migrateLoad pts us rs).points (migrateLoad pts us rs).undoStack
        (migrateLoad pts us rs).redoStack).undoStack = (migrateLoad pts us rs).undoStack ∧
    (migrateLoad (migrateLoad pts us rs).points (migrateLoad pts us rs).undoStack
        (migrateLoad pts us rs).redoStack).redoStack = (migrateLoad pts us rs).redoStack := by
  have hp : migratePoints (migratePoints pts).1 = ((migratePoints pts).1, 0, 0) :=
    migratePoints_of_migrated _ (migratePoints_migrated pts)
  have hu : migrateStack (migrateStack us).1 = ((migrateStack us).1, 0, 0) :=
    migrateStack_of_migrated _ (migrateStack_migrated us)
  have hr : migrateStack (migrateStack rs).1 = ((migrateStack rs).1, 0, 0) :=
    migrateStack_of_migrated _ (migrateStack_migrated rs)
  refine ⟨?_, ?_, ?_, ?_, ?_, ?_⟩ <;>
    simp [migrateLoad, hp, hu, hr]

-- =====================================================
-- CLAIMS C5 AND C6: combining files
-- =====================================================

/-- A charting-mode file named A with no points, for the C5 scenario. -/
def chartFileA : CombineFile :=
  { name := "A", mode := Mode.heatmapCharting, points := [] }

/-- A simple-mode file named B with no points, for the C5 scenario. -/
def simpleFileB : CombineFile :=
  { name := "B", mode := Mode.simpleHeatmap, points := [] }

/-- A simple-mode file named A holding two points, for the C6 witness. -/
def simpleFileWithPointsA : CombineFile :=
  { name := "A", mode := Mode.simpleHeatmap, points := [samplePoint, samplePoint2] }

/-- A simple-mode file named B holding one point that file A also holds,
for the C6 witness. -/
def simpleFileWithPointsB : CombineFile :=
  { name := "B", mode := Mode.simpleHeatmap, points := [samplePoint] }

/-- When every file matches the combine mode (which is also the first
mode of the first file), the mode-validation loop finds nothing. -/
theorem checkModes_none (cm : Mode) (l : List CombineFile)
    (h : ∀ f ∈ l, f.mode = cm) : checkModes cm cm l = none := by
  induction l with
  | nil => rfl
  | cons f rest ih =>
    have hf : f.mode = cm := h f (List.mem_cons_self f rest)
    simp only [checkModes, hf, ne_eq, not_true_eq_false, if_false, ite_self]
    exact ih (fun g hg => h g (List.mem_cons_of_mem f hg))

/-- When the mode of some file differs from the combine mode (that of the first
mode being the combine mode itself), the loop reports a mode-mismatch
error carrying the name and mode of an offending file. -/
theorem checkModes_mismatch (cm : Mode) (l : List CombineFile)
    (h : ∃ f ∈ l, f.mode ≠ cm) :
    ∃ name fMode, checkModes cm cm l
        = some (CombineError.modeMismatch name fMode cm) ∧
      ∃ f ∈ l, f.name = name ∧ f.mode = fMode ∧ fMode ≠ cm := by
  induction l with
  | nil => simp at h
  | cons f rest ih =>
    by_cases hf : f.mode = cm
    · have hrest : ∃ g ∈ rest, g.mode ≠ cm := by
        obtain ⟨g, hg, hgm⟩ := h
        rcases List.mem_cons.mp hg with he | hm
        · exact absurd (he ▸ hf) hgm
        · exact ⟨g, hm, hgm⟩
      obtain ⟨name, fMode, hck, g, hg, hgn, hgm, hne⟩ := ih hrest
      refine ⟨name, fMode, ?_, g, List.mem_cons_of_mem f hg, hgn, hgm, hne⟩
      simp only [checkModes, hf, ne_eq, not_true_eq_false, if_false, ite_self]
      exact hck
    · refine ⟨f.name, f.mode, ?_, f, List.mem_cons_self f rest, rfl, rfl, hf⟩
      simp only [checkModes, ne_eq, hf, not_false_eq_true, if_true]

/-- C5: with two or more selected files, any file whose mode differs from
the selected combine mode makes the combine fail with a mode-mismatch
error naming an offending file and its mode, producing no combined data;
and fewer than two files are always rejected. -/
theorem c5_mode_mismatch_rejected (vcfg : ValidationConfig) (proceed : Bool)
    (combineMode : Mode) (files : List CombineFile) :
    (2 ≤ files.length → (∃ f ∈ files, f.mode ≠ combineMode) →
      ∃ name fMode, handleCombineFiles vcfg proceed combineMode files
          = CombineOutcome.combineError
              (CombineError.modeMismatch name fMode combineMode) ∧
        ∃ f ∈ files, f.name = name ∧ f.mode = fMode ∧ fMode ≠ combineMode) ∧
    (files.length < 2 → handleCombineFiles vcfg proceed combineMode files
        = CombineOutcome.combineError CombineError.tooFewFiles) := by
  constructor
  · intro hlen hex
    have hlt : ¬ files.length < 2 := by omega
    cases files with
    | nil => simp at hlen
    | cons f₀ rest =>
      by_cases hf : f₀.mode = combineMode
      · obtain ⟨name, fMode, hck, hwit⟩ :=
          checkModes_mismatch combineMode (f₀ :: rest) hex
        refine ⟨name, fMode, ?_, hwit⟩
        simp only [handleCombineFiles, if_neg hlt, hf, hck]
      · refine ⟨f₀.name, f₀.mode, ?_, f₀, List.mem_cons_self f₀ rest, rfl, rfl, hf⟩
        simp only [handleCombineFiles, if_neg hlt, checkModes, ne_eq, hf,
          not_false_eq_true, if_true]
  · intro h
    simp only [handleCombineFiles, if_pos h]

/-- Witness for C5 at the scenario of the spec: combining charting-mode
file A with simple-mode file B under target mode simpleHeatmap fails with
a mode mismatch naming an offending file, and a single file is rejected
outright. -/
theorem c5_mode_mismatch_rejected_witness :
    2 ≤ ([chartFileA, simpleFileB] : List CombineFile).length ∧
    (∃ f ∈ ([chartFileA, simpleFileB] : List CombineFile),
      f.mode ≠ Mode.simpleHeatmap) ∧
    (∃ name fMode,
      handleCombineFiles CONFIG_validation true Mode.simpleHeatmap
          [chartFileA, simpleFileB]
        = CombineOutcome.combineError
            (CombineError.modeMismatch name fMode Mode.simpleHeatmap) ∧
      ∃ f ∈ ([chartFileA, simpleFileB] : List CombineFile),
        f.name = name ∧ f.mode = fMode ∧ fMode ≠ Mode.simpleHeatmap) ∧
    ([chartFileA] : List CombineFile).length < 2 ∧
    handleCombineFiles CONFIG_validation true Mode.simpleHeatmap [chartFileA]
      = CombineOutcome.combineError CombineError.tooFewFiles := by
  have h2 : 2 ≤ ([chartFileA, simpleFileB] : List CombineFile).length := by decide
  have hex : ∃ f ∈ ([chartFileA, simpleFileB] : List CombineFile),
      f.mode ≠ Mode.simpleHeatmap :=
    ⟨chartFileA, List.mem_cons_self _ _, by decide⟩
  refine ⟨h2, hex, ?_, by decide, ?_⟩
  · exact (c5_mode_mismatch_rejected CONFIG_validation true Mode.simpleHeatmap
      [chartFileA, simpleFileB]).1 h2 hex
  · exact (c5_mode_mismatch_rejected CONFIG_validation true Mode.simpleHeatmap
      [chartFileA]).2 (by decide)

/-- C6: combining files of one identical mode (matching the selected
mode, with at least two files, the large-count gate confirmed when it
appears) yields combined data whose points are exactly the concatenation
of the points of the files in selection order — no reordering, no removal of
duplicates — and whose undo and redo stacks are both empty. -/
theorem c6_combine_concatenates (vcfg : ValidationConfig) (combineMode : Mode)
    (files : List CombineFile) (m : Mode)
    (hm : ∀ f ∈ files, f.mode = m) (hcm : combineMode = m)
    (hlen : 2 ≤ files.length) :
    handleCombineFiles vcfg true combineMode files
      = CombineOutcome.ok
          { mode := m, points := (files.map CombineFile.points).flatten,
            undoStack := [], redoStack := [] } := by
  subst hcm
  have hlt : ¬ files.length < 2 := by omega
  cases files with
  | nil => simp at hlen
  | cons f₀ rest =>
    have hf₀ : f₀.mode = combineMode := hm f₀ (List.mem_cons_self f₀ rest)
    have hck : checkModes combineMode combineMode (f₀ :: rest) = none :=
      checkModes_none combineMode (f₀ :: rest) hm
    simp only [handleCombineFiles, if_neg hlt, hf₀, hck, Bool.true_eq_false,
      and_false, if_false]

/-- Witness for C6 at concrete inputs: two simple-mode files whose point
lists share a point; the duplicate is kept and the order is the
concatenation order, with empty stacks. -/
theorem c6_combine_concatenates_witness :
    (∀ f ∈ ([simpleFileWithPointsA, simpleFileWithPointsB] : List CombineFile),
      f.mode = Mode.simpleHeatmap) ∧
    2 ≤ ([simpleFileWithPointsA, simpleFileWithPointsB] : List CombineFile).length ∧
    handleCombineFiles CONFIG_validation true Mode.simpleHeatmap
        [simpleFileWithPointsA, simpleFileWithPointsB]
      = CombineOutcome.ok
          { mode := Mode.simpleHeatmap,
            points := [samplePoint, samplePoint2, samplePoint],
            undoStack := [], redoStack := [] } := by
  have hm : ∀ f ∈ ([simpleFileWithPointsA, simpleFileWithPointsB] : List CombineFile),
      f.mode = Mode.simpleHeatmap := by decide
  refine ⟨hm, by decide, ?_⟩
  exact (c6_combine_concatenates CONFIG_validation Mode.simpleHeatmap
    [simpleFileWithPointsA, simpleFileWithPointsB] Mode.simpleHeatmap hm rfl
    (by decide)).trans (by decide)

end VolleyballHeatmap
